import Mathlib

/-!
Verification of the booking core of the bonsai-booking-system repository.

Shallow embedding conventions:
- JavaScript numbers are modelled as exact rationals (ℚ); the numeric
  literal 0.025 is the rational 25/1000.
- Date strings are modelled by the integer millisecond timestamp that
  `new Date(s).getTime()` returns, so a date is a value of ℤ and
  arithmetic on dates is integer arithmetic on milliseconds.
- `Math.ceil` is the integer ceiling, `Math.round` is the
  floor of x + 1/2 (JavaScript rounds halves toward positive infinity).
- The TypeScript loops that return on the first hit become structural
  recursion over lists, returning on the first hit.
-/

namespace Bonsai

/-- Booking status strings: the union type in src/types/index.ts plus the
Cancelled status written by BookingList.tsx and used in bookingUtils.ts. -/
inductive Status where
  | Confirmed
  | Paid
  | CheckedOut
  | Cancelled
deriving DecidableEq, Repr

/-- One row of the booking_rooms table (interface BookingRoom): only the
fields read by the conflict checkers are modelled. -/
structure BookingRoom where
  room_id : String
  check_in_date : ℤ
  check_out_date : ℤ
deriving DecidableEq, Repr

/-- An existing reservation (interface Booking), restricted to the fields
the conflict checkers read. The room_id is Option String: multi-room
bookings store a null direct room reference. An absent booking_rooms
array is the empty list (the source guards with a length check, and a
loop over an empty array does nothing either way). -/
structure Booking where
  room_id : Option String
  check_in : ℤ
  check_out : ℤ
  status : Status
  booking_rooms : List BookingRoom
deriving DecidableEq, Repr

/-- The candidate passed to checkRoomConflict (Omit of Booking): the
room_id is Option String, where none models null/undefined and
some "" models the empty string; both are falsy in the source guard. -/
structure NewBooking where
  room_id : Option String
  check_in : ℤ
  check_out : ℤ
deriving DecidableEq, Repr

/-- interface RoomDateRange of bookingUtils.ts. -/
structure RoomDateRange where
  room_id : String
  check_in : ℤ
  check_out : ℤ
deriving DecidableEq, Repr

/-- interface ConflictCheckResult of src/types/index.ts. -/
structure ConflictCheckResult where
  hasConflict : Bool
  conflictingBooking : Option Booking
deriving DecidableEq, Repr

/-- Truthiness of the candidate room reference: null, undefined and the
empty string are falsy in `if (!room_id)`. -/
def falsyRoomId : Option String → Bool
  | none => true
  | some s => s = ""

/-- The body of the `for (const booking of existingBookings)` loop shared
verbatim by checkRoomConflict (lines 27-64) and checkMultiRoomConflict
(lines 83-118) of bookingUtils.ts: skip Checked-out and Cancelled
bookings, test the single-room field, then test each booking_rooms
entry, returning the first conflicting booking. -/
def checkRoomConflictAux (newCheckIn newCheckOut : ℤ) (room_id : String) :
    List Booking → ConflictCheckResult
  | [] => ⟨false, none⟩
  | booking :: rest =>
    if booking.status = Status.CheckedOut ∨ booking.status = Status.Cancelled then
      checkRoomConflictAux newCheckIn newCheckOut room_id rest
    else if booking.room_id = some room_id ∧
        newCheckIn < booking.check_out ∧ newCheckOut > booking.check_in then
      ⟨true, some booking⟩
    else if booking.booking_rooms.any (fun bookingRoom =>
        bookingRoom.room_id == room_id
          && decide (newCheckIn < bookingRoom.check_out_date)
          && decide (newCheckOut > bookingRoom.check_in_date)) then
      ⟨true, some booking⟩
    else
      checkRoomConflictAux newCheckIn newCheckOut room_id rest

/-- checkRoomConflict of bookingUtils.ts: early no-conflict return on a
falsy room_id, otherwise the loop over existing bookings. -/
def checkRoomConflict (newBooking : NewBooking) (existingBookings : List Booking) :
    ConflictCheckResult :=
  match newBooking.room_id with
  | none => ⟨false, none⟩
  | some r =>
    if r = "" then ⟨false, none⟩
    else checkRoomConflictAux newBooking.check_in newBooking.check_out r existingBookings

/-- checkMultiRoomConflict of bookingUtils.ts: for each room/date range,
run the same inner loop over existing bookings, returning the first
conflict found. -/
def checkMultiRoomConflict : List RoomDateRange → List Booking → ConflictCheckResult
  | [], _ => ⟨false, none⟩
  | r :: rest, existingBookings =>
    let res := checkRoomConflictAux r.check_in r.check_out r.room_id existingBookings
    if res.hasConflict then res
    else checkMultiRoomConflict rest existingBookings

/-- Milliseconds per day: 1000 * 60 * 60 * 24. -/
def msPerDay : ℤ := 86400000

/-- Math.ceil(q * 100) / 100 — the two-decimal ceiling used for VAT in
calculationUtils.ts. -/
def ceil2 (q : ℚ) : ℚ := (⌈q * 100⌉ : ℚ) / 100

/-- Math.round(q * 100) / 100 — two-decimal rounding, halves toward
positive infinity as in JavaScript. -/
def round2 (q : ℚ) : ℚ := (⌊q * 100 + 1/2⌋ : ℚ) / 100

/-- calculateVAT of calculationUtils.ts (lines 4-7). -/
def calculateVAT (price : ℚ) (isApplicable : Bool) : ℚ :=
  if !isApplicable then 0
  else ceil2 (price * (25/1000))

/-- One line of the roomBookings input to calculateMultiRoomTotal:
{room_id, check_in_date, check_out_date, price_per_night}. The
parseFloat(rb.price_per_night) || 0 coercion is modelled by taking the
price directly as a rational. -/
structure RoomBooking where
  price_per_night : ℚ
  check_in_date : ℤ
  check_out_date : ℤ
deriving DecidableEq, Repr

/-- The pair {total_price, vat_amount} returned by
calculateMultiRoomTotal. -/
structure MultiRoomTotal where
  total_price : ℚ
  vat_amount : ℚ
deriving DecidableEq, Repr

/-- calculateMultiRoomTotal of calculationUtils.ts (lines 26-56): per
line, nights = Math.ceil((checkOut - checkIn) / msPerDay), the line
total accumulates into totalPrice, and when VAT applies the two-decimal
ceiling of 2.5 percent of the line total accumulates into totalVAT;
finally totalVAT is ceiled to two decimals and the adjustment added,
and the grand total is ceiled to two decimals. -/
def calculateMultiRoomTotal (roomBookings : List RoomBooking)
    (vatApplicable : Bool) (vatAdjustment : ℚ) : MultiRoomTotal :=
  let acc := roomBookings.foldl
    (fun (acc : ℚ × ℚ) rb =>
      let nights : ℤ := ⌈((rb.check_out_date - rb.check_in_date : ℤ) : ℚ) / (msPerDay : ℚ)⌉
      let roomTotal := rb.price_per_night * (nights : ℚ)
      let totalPrice := acc.1 + roomTotal
      let totalVAT :=
        if vatApplicable then acc.2 + ceil2 (roomTotal * (25/1000)) else acc.2
      (totalPrice, totalVAT))
    (0, 0)
  let totalVAT := ceil2 acc.2 + vatAdjustment
  let finalTotal := ceil2 (acc.1 + totalVAT)
  ⟨finalTotal, totalVAT⟩

/-- The pair {refundAmount, policy} returned by calculateRefund. -/
structure RefundResult where
  refundAmount : ℚ
  policy : String
deriving DecidableEq, Repr

/-- calculateRefund of calculationUtils.ts (lines 59-108). The checkIn
and today arguments are the two timestamps after setHours(0,0,0,0), so
they stand for local midnights; daysUntilCheckIn is the ceiling of
their difference in days. The optional customRefund is Option ℚ, with
none standing for undefined/null. -/
def calculateRefund (bookingPrice : ℚ) (checkIn today : ℤ)
    (advancePaid : ℚ) (customRefund : Option ℚ) : RefundResult :=
  match customRefund with
  | some c =>
    ⟨round2 c, "Custom refund amount - Based on guest negotiation"⟩
  | none =>
    let daysUntilCheckIn : ℤ := ⌈((checkIn - today : ℤ) : ℚ) / (msPerDay : ℚ)⌉
    let refundPercentage : ℚ :=
      if daysUntilCheckIn ≤ 0 then 0
      else if daysUntilCheckIn ≤ 3 then 0
      else if daysUntilCheckIn < 7 then 50
      else 85
    let policy : String :=
      if daysUntilCheckIn ≤ 0 then "100% charge - Cancelled within 72 hours to check-in date"
      else if daysUntilCheckIn ≤ 3 then "100% charge - Cancelled within 72 hours to check-in date"
      else if daysUntilCheckIn < 7 then "50% refund - Cancelled between 7 days to 72 hours"
      else "85% refund - Cancelled 7 days before check-in"
    ⟨round2 (advancePaid * refundPercentage / 100), policy⟩

/-- The financial fields of a Booking row that the cancellation update in
BookingList.tsx touches or that determine the update. -/
structure BookingFinance where
  price : ℚ
  advance : ℚ
  refund_amount : ℚ
  checkout_payable : ℚ
  pending_amount : ℚ
  revenue : ℚ
  vat_amount : ℚ
  status : Status
deriving DecidableEq, Repr

/-- The supabase update issued by processRefund in BookingList.tsx
(lines 149-185) on the cancelled booking, given the refund amount
computed beforehand (from calculateRefund for the policy path, or the
parsed custom amount): status becomes Cancelled, refund_amount is the
refund, checkout_payable, pending_amount and vat_amount become 0, and
revenue and advance both become advance - refundAmount. -/
def processRefundUpdate (b : BookingFinance) (refundAmount : ℚ) : BookingFinance :=
  { b with
    status := Status.Cancelled
    refund_amount := refundAmount
    checkout_payable := 0
    pending_amount := 0
    revenue := b.advance - refundAmount
    advance := b.advance - refundAmount
    vat_amount := 0 }

/-! Helper notions and lemmas about the conflict checkers. -/

/-- A reservation is active when its status is neither Checked-out nor
Cancelled; only active reservations can block availability. -/
def isActive (b : Booking) : Bool :=
  decide (¬ (b.status = Status.CheckedOut ∨ b.status = Status.Cancelled))

/-- The reservation b blocks the candidate range [ci, co) on room r: it is
active and claims room r with strictly overlapping dates, either through
its single-room field or through one of its booking_rooms entries. -/
def blocks (r : String) (ci co : ℤ) (b : Booking) : Prop :=
  isActive b = true ∧
  ((b.room_id = some r ∧ ci < b.check_out ∧ co > b.check_in) ∨
   ∃ br ∈ b.booking_rooms,
     br.room_id = r ∧ ci < br.check_out_date ∧ co > br.check_in_date)

instance blocksDecidable (r : String) (ci co : ℤ) (b : Booking) :
    Decidable (blocks r ci co b) := by
  unfold blocks
  exact inferInstance

lemma isActive_iff (b : Booking) :
    isActive b = true ↔ ¬ (b.status = Status.CheckedOut ∨ b.status = Status.Cancelled) := by
  simp [isActive]

lemma any_roomStay_iff (r : String) (ci co : ℤ) (l : List BookingRoom) :
    (l.any (fun br => br.room_id == r
        && decide (ci < br.check_out_date) && decide (co > br.check_in_date)) = true)
      ↔ ∃ br ∈ l, br.room_id = r ∧ ci < br.check_out_date ∧ co > br.check_in_date := by
  simp [List.any_eq_true, Bool.and_eq_true, and_assoc]

/-- Full characterization of the shared inner loop: either no reservation
in the list blocks and the loop falls through to no-conflict, or the loop
returns true together with some blocking reservation of the list. -/
lemma checkRoomConflictAux_cases (r : String) (ci co : ℤ) (l : List Booking) :
    (checkRoomConflictAux ci co r l = ⟨false, none⟩ ∧ ∀ b ∈ l, ¬ blocks r ci co b) ∨
    (∃ c, checkRoomConflictAux ci co r l = ⟨true, some c⟩ ∧ c ∈ l ∧ blocks r ci co c) := by
  induction l with
  | nil =>
    left
    exact ⟨rfl, by simp⟩
  | cons b rest ih =>
    by_cases hst : b.status = Status.CheckedOut ∨ b.status = Status.Cancelled
    · have hnb : ¬ blocks r ci co b := by
        intro hb
        exact (isActive_iff b).mp hb.1 hst
      rcases ih with ⟨heq, hall⟩ | ⟨c, heq, hc, hbl⟩
      · left
        refine ⟨by simp [checkRoomConflictAux, hst, heq], ?_⟩
        intro x hx
        rcases List.mem_cons.mp hx with rfl | hx
        · exact hnb
        · exact hall x hx
      · right
        exact ⟨c, by simp [checkRoomConflictAux, hst, heq], List.mem_cons_of_mem _ hc, hbl⟩
    · have hactive : isActive b = true := (isActive_iff b).mpr hst
      by_cases h1 : b.room_id = some r ∧ ci < b.check_out ∧ co > b.check_in
      · right
        exact ⟨b, by simp [checkRoomConflictAux, hst, h1],
          List.mem_cons_self .., ⟨hactive, Or.inl h1⟩⟩
      · by_cases h2 : b.booking_rooms.any (fun br => br.room_id == r
            && decide (ci < br.check_out_date) && decide (co > br.check_in_date)) = true
        · right
          refine ⟨b, by simp [checkRoomConflictAux, hst, h1, h2], List.mem_cons_self .., ?_⟩
          exact ⟨hactive, Or.inr ((any_roomStay_iff r ci co b.booking_rooms).mp h2)⟩
        · have hnb : ¬ blocks r ci co b := by
            rintro ⟨-, hcl | hrs⟩
            · exact h1 hcl
            · exact h2 ((any_roomStay_iff r ci co b.booking_rooms).mpr hrs)
          rcases ih with ⟨heq, hall⟩ | ⟨c, heq, hc, hbl⟩
          · left
            refine ⟨by simp [checkRoomConflictAux, hst, h1, h2, heq], ?_⟩
            intro x hx
            rcases List.mem_cons.mp hx with rfl | hx
            · exact hnb
            · exact hall x hx
          · right
            exact ⟨c, by simp [checkRoomConflictAux, hst, h1, h2, heq],
              List.mem_cons_of_mem _ hc, hbl⟩

/-- Filtering out the non-active reservations does not change the inner
loop: Checked-out and Cancelled reservations are skipped anyway. -/
lemma checkRoomConflictAux_filter (r : String) (ci co : ℤ) (l : List Booking) :
    checkRoomConflictAux ci co r (l.filter isActive) = checkRoomConflictAux ci co r l := by
  induction l with
  | nil => rfl
  | cons b rest ih =>
    by_cases hst : b.status = Status.CheckedOut ∨ b.status = Status.Cancelled
    · have hfb : isActive b = false := by
        rcases hst with h | h <;> simp [isActive, h]
      simp [List.filter_cons, hfb, checkRoomConflictAux, hst, ih]
    · have hfb : isActive b = true := (isActive_iff b).mpr hst
      simp only [List.filter_cons, hfb, if_true]
      simp only [checkRoomConflictAux, hst, if_false, ih]

/-- With an empty reservation pool the multi-room checker reports no
conflict. -/
lemma checkMultiRoomConflict_nil (ranges : List RoomDateRange) :
    checkMultiRoomConflict ranges [] = ⟨false, none⟩ := by
  induction ranges with
  | nil => rfl
  | cons rd rest ih => simp [checkMultiRoomConflict, checkRoomConflictAux, ih]

/-- If some listed range is blocked by some existing reservation, the
multi-room checker reports a conflict and returns a reservation that
blocks one of the listed ranges. -/
lemma checkMultiRoomConflict_complete (ranges : List RoomDateRange)
    (existing : List Booking) (rd : RoomDateRange) (hrd : rd ∈ ranges)
    (b : Booking) (hb : b ∈ existing)
    (hblocks : blocks rd.room_id rd.check_in rd.check_out b) :
    (checkMultiRoomConflict ranges existing).hasConflict = true ∧
    ∃ c, (checkMultiRoomConflict ranges existing).conflictingBooking = some c ∧
      c ∈ existing ∧ ∃ rd2 ∈ ranges, blocks rd2.room_id rd2.check_in rd2.check_out c := by
  induction ranges with
  | nil => cases hrd
  | cons hd rest ih =>
    rcases checkRoomConflictAux_cases hd.room_id hd.check_in hd.check_out existing with
      ⟨heq, hall⟩ | ⟨c, heq, hc, hbl⟩
    · rcases List.mem_cons.mp hrd with rfl | hrd2
      · exact absurd hblocks (hall b hb)
      · have := ih hrd2
        refine ⟨?_, ?_⟩
        · simpa [checkMultiRoomConflict, heq] using this.1
        · rcases this.2 with ⟨c, hcb, hcmem, rd2, hrd2m, hbl2⟩
          exact ⟨c, by simpa [checkMultiRoomConflict, heq] using hcb, hcmem,
            rd2, List.mem_cons_of_mem _ hrd2m, hbl2⟩
    · refine ⟨by simp [checkMultiRoomConflict, heq], c, by simp [checkMultiRoomConflict, heq],
        hc, hd, List.mem_cons_self .., hbl⟩

/-- Filtering out the non-active reservations does not change the
multi-room checker either. -/
lemma checkMultiRoomConflict_filter (ranges : List RoomDateRange) (l : List Booking) :
    checkMultiRoomConflict ranges (l.filter isActive) = checkMultiRoomConflict ranges l := by
  induction ranges with
  | nil => rfl
  | cons rd rest ih =>
    simp [checkMultiRoomConflict, checkRoomConflictAux_filter, ih]

/-- Ceiling expressed through floor, used to evaluate concrete ceilings
with the norm_num floor extension. -/
lemma ceil_as_floor (a : ℚ) : ⌈a⌉ = -⌊-a⌋ := by
  rw [Int.floor_neg, neg_neg]

/-- The refund-percentage tier table as the specification states it on
daysUntilCheckIn: d ≤ 0 gives 0, 0 < d ≤ 3 gives 0, 3 < d < 7 gives 50,
and d ≥ 7 gives 85. -/
def refundTierSpec (d : ℤ) : ℚ :=
  if d ≤ 0 then 0
  else if d ≤ 3 then 0
  else if d < 7 then 50
  else 85

/-- Rounding half away from zero to two decimal places, the rounding mode
the specification asserts for calculateVAT. -/
def roundAway2 (q : ℚ) : ℚ :=
  if q < 0 then -((⌊-q * 100 + 1/2⌋ : ℚ) / 100)
  else (⌊q * 100 + 1/2⌋ : ℚ) / 100

/-- Helper: the multi-room checker over a pool of only inactive
reservations reports no conflict. -/
lemma checkRoomConflictAux_inactive (r : String) (ci co : ℤ) (l : List Booking) :
    checkRoomConflictAux ci co r (l.filter fun b => !isActive b) = ⟨false, none⟩ := by
  rcases checkRoomConflictAux_cases r ci co (l.filter fun b => !isActive b) with
    ⟨heq, -⟩ | ⟨c, heq, hc, hbl⟩
  · exact heq
  · have hmem := List.mem_filter.mp hc
    rw [Bool.not_eq_true'] at hmem
    exact absurd hbl.1 (by simp [hmem.2])

lemma checkMultiRoomConflict_inactive (ranges : List RoomDateRange) (l : List Booking) :
    checkMultiRoomConflict ranges (l.filter fun b => !isActive b) = ⟨false, none⟩ := by
  induction ranges with
  | nil => rfl
  | cons rd rest ih =>
    simp [checkMultiRoomConflict, checkRoomConflictAux_inactive, ih]

/-! The claims. -/

/-- C1: for every candidate room r (a real, nonempty room id) and date
range with check_in < check_out, and every existing reservation that is
neither Checked-out nor Cancelled and claims room r (through its
single-room room_id or any of its booking_rooms entries) with strictly
overlapping dates, checkRoomConflict reports a conflict together with a
blocking reservation, and checkMultiRoomConflict does so for any request
list containing that range. -/
theorem checkConflict_detects_overlap
    (r : String) (ci co : ℤ) (existing : List Booking) (b : Booking)
    (hr : r ≠ "") (hdates : ci < co) (hb : b ∈ existing)
    (hblocks : blocks r ci co b) :
    ((checkRoomConflict ⟨some r, ci, co⟩ existing).hasConflict = true ∧
      ∃ c, (checkRoomConflict ⟨some r, ci, co⟩ existing).conflictingBooking = some c ∧
        c ∈ existing ∧ blocks r ci co c) ∧
    (∀ ranges : List RoomDateRange, (⟨r, ci, co⟩ : RoomDateRange) ∈ ranges →
      (checkMultiRoomConflict ranges existing).hasConflict = true ∧
      ∃ c, (checkMultiRoomConflict ranges existing).conflictingBooking = some c ∧
        c ∈ existing ∧ ∃ rd ∈ ranges, blocks rd.room_id rd.check_in rd.check_out c) := by
  constructor
  · have hcheck : checkRoomConflict ⟨some r, ci, co⟩ existing
        = checkRoomConflictAux ci co r existing := by
      simp [checkRoomConflict, hr]
    rcases checkRoomConflictAux_cases r ci co existing with ⟨heq, hall⟩ | ⟨c, heq, hc, hbl⟩
    · exact absurd hblocks (hall b hb)
    · rw [hcheck, heq]
      exact ⟨rfl, c, rfl, hc, hbl⟩
  · intro ranges hmem
    exact checkMultiRoomConflict_complete ranges existing ⟨r, ci, co⟩ hmem b hb hblocks

/-- Witness for C1 at a concrete input: candidate room A on [0, 2) against
one Confirmed reservation of room A on [1, 3). -/
theorem checkConflict_detects_overlap_witness :
    ((checkRoomConflict ⟨some "A", 0, 2⟩
        [⟨some "A", 1, 3, Status.Confirmed, []⟩]).hasConflict = true ∧
      ∃ c, (checkRoomConflict ⟨some "A", 0, 2⟩
          [⟨some "A", 1, 3, Status.Confirmed, []⟩]).conflictingBooking = some c ∧
        c ∈ [(⟨some "A", 1, 3, Status.Confirmed, []⟩ : Booking)] ∧ blocks "A" 0 2 c) ∧
    (∀ ranges : List RoomDateRange, (⟨"A", 0, 2⟩ : RoomDateRange) ∈ ranges →
      (checkMultiRoomConflict ranges
          [⟨some "A", 1, 3, Status.Confirmed, []⟩]).hasConflict = true ∧
      ∃ c, (checkMultiRoomConflict ranges
          [⟨some "A", 1, 3, Status.Confirmed, []⟩]).conflictingBooking = some c ∧
        c ∈ [(⟨some "A", 1, 3, Status.Confirmed, []⟩ : Booking)] ∧
        ∃ rd ∈ ranges, blocks rd.room_id rd.check_in rd.check_out c) :=
  checkConflict_detects_overlap "A" 0 2
    [⟨some "A", 1, 3, Status.Confirmed, []⟩] ⟨some "A", 1, 3, Status.Confirmed, []⟩
    (by decide) (by decide) (by simp) (by decide)

/-- C2: if every active existing reservation claims the candidate room
only with ranges disjoint from or exactly adjacent to the candidate range
(existing.check_out ≤ candidate.check_in or candidate.check_out ≤
existing.check_in, equality at the boundary included), checkRoomConflict
reports no conflict: back-to-back stays are never a conflict. -/
theorem checkConflict_allows_adjacency
    (r : String) (ci co : ℤ) (existing : List Booking)
    (h : ∀ b ∈ existing, isActive b = true →
      (b.room_id = some r → b.check_out ≤ ci ∨ co ≤ b.check_in) ∧
      (∀ br ∈ b.booking_rooms, br.room_id = r →
        br.check_out_date ≤ ci ∨ co ≤ br.check_in_date)) :
    (checkRoomConflict ⟨some r, ci, co⟩ existing).hasConflict = false := by
  have hnone : ∀ b ∈ existing, ¬ blocks r ci co b := by
    intro b hb hbl
    obtain ⟨hact, hcase⟩ := hbl
    obtain ⟨h1, h2⟩ := h b hb hact
    rcases hcase with ⟨hrm, hlt, hgt⟩ | ⟨br, hbrm, hrm, hlt, hgt⟩
    · rcases h1 hrm with hle | hle <;> omega
    · rcases h2 br hbrm hrm with hle | hle <;> omega
  by_cases hre : r = ""
  · simp [checkRoomConflict, hre]
  · rcases checkRoomConflictAux_cases r ci co existing with ⟨heq, -⟩ | ⟨c, heq, hc, hbl⟩
    · simp [checkRoomConflict, hre, heq]
    · exact absurd hbl (hnone c hc)

/-- Witness for C2 at a concrete input: candidate room A on [2, 3)
against one Confirmed reservation of room A on [0, 2), exactly
back-to-back. -/
theorem checkConflict_allows_adjacency_witness :
    (checkRoomConflict ⟨some "A", 2, 3⟩
      [⟨some "A", 0, 2, Status.Confirmed, []⟩]).hasConflict = false :=
  checkConflict_allows_adjacency "A" 2 3
    [⟨some "A", 0, 2, Status.Confirmed, []⟩] (by decide)

/-- C3: Cancelled and Checked-out reservations never produce a conflict
in either checker: removing them from the pool never changes the result
of checkRoomConflict or checkMultiRoomConflict, and a pool of only such
reservations yields no conflict regardless of rooms and dates. -/
theorem inactive_reservations_never_block
    (cand : NewBooking) (ranges : List RoomDateRange) (existing : List Booking) :
    checkRoomConflict cand (existing.filter isActive) = checkRoomConflict cand existing ∧
    checkMultiRoomConflict ranges (existing.filter isActive)
      = checkMultiRoomConflict ranges existing ∧
    checkRoomConflict cand (existing.filter fun b => !isActive b) = ⟨false, none⟩ ∧
    checkMultiRoomConflict ranges (existing.filter fun b => !isActive b) = ⟨false, none⟩ := by
  refine ⟨?_, checkMultiRoomConflict_filter ranges existing, ?_,
    checkMultiRoomConflict_inactive ranges existing⟩
  · match hcand : cand.room_id with
    | none => simp [checkRoomConflict, hcand]
    | some r =>
      by_cases hre : r = "" <;>
        simp [checkRoomConflict, hcand, hre, checkRoomConflictAux_filter]
  · match hcand : cand.room_id with
    | none => simp [checkRoomConflict, hcand]
    | some r =>
      by_cases hre : r = "" <;>
        simp [checkRoomConflict, hcand, hre, checkRoomConflictAux_inactive]

/-- C4: without a custom override, calculateRefund applies exactly the
tier table refundTierSpec on daysUntilCheckIn = d (the day distance
between the check-in midnight and the midnight of today) and returns
round(advancePaid * percentage / 100, 2); in particular d = 3 falls in
the 0 percent tier, d = 4 in the 50 percent tier and d = 7 in the 85
percent tier. -/
theorem calculateRefund_policy_tiers (price advancePaid : ℚ) (t d : ℤ) :
    (calculateRefund price (t + d * msPerDay) t advancePaid none).refundAmount
      = round2 (advancePaid * refundTierSpec d / 100) ∧
    refundTierSpec 3 = 0 ∧ refundTierSpec 4 = 50 ∧ refundTierSpec 7 = 85 := by
  have hms : ((msPerDay : ℤ) : ℚ) ≠ 0 := by norm_num [msPerDay]
  have hd : (⌈((t + d * msPerDay - t : ℤ) : ℚ) / ((msPerDay : ℤ) : ℚ)⌉ : ℤ) = d := by
    have hcast : ((t + d * msPerDay - t : ℤ) : ℚ) = (d : ℚ) * ((msPerDay : ℤ) : ℚ) := by
      push_cast
      ring
    rw [hcast, mul_div_assoc, div_self hms, mul_one, Int.ceil_intCast]
  refine ⟨?_, by norm_num [refundTierSpec], by norm_num [refundTierSpec],
    by norm_num [refundTierSpec]⟩
  simp only [calculateRefund, refundTierSpec, hd]

/-- C5 counterexample: at price 0.1, calculateVAT returns 0.01 (the
two-decimal ceiling) while rounding 0.1 * 0.025 = 0.0025 half away from
zero to two decimals gives 0. -/
theorem calculateVAT_not_half_away_rounding :
    calculateVAT (1/10) true ≠ roundAway2 ((1/10) * (25/1000)) := by
  norm_num [calculateVAT, ceil2, roundAway2, ceil_as_floor]

/-- C5 amended: calculateVAT(price, true) is price * 0.025 rounded UP to
the next cent, ceil(price * 2.5) / 100, and calculateVAT(price, false)
is 0. -/
theorem calculateVAT_ceiling_spec (price : ℚ) :
    calculateVAT price true = ((⌈price * 5 / 2⌉ : ℤ) : ℚ) / 100 ∧
    calculateVAT price false = 0 := by
  constructor
  · have harg : price * (25/1000) * 100 = price * 5 / 2 := by ring
    show ceil2 (price * (25/1000)) = _
    rw [ceil2, harg]
  · rfl

/-- C6 counterexample: on the two-room input {5000 per night, Feb 1 to
Feb 2 2025} and {5500 per night, Feb 2 to Feb 3 2025} (millisecond
timestamps 1738368000000, 1738454400000, 1738540800000) with VAT and no
adjustment, calculateMultiRoomTotal does NOT return total_price = 10763
with vat_amount = 263. -/
theorem multiRoomTotal_feb_example_claim_false :
    ¬ ((calculateMultiRoomTotal
        [⟨5000, 1738368000000, 1738454400000⟩, ⟨5500, 1738454400000, 1738540800000⟩]
        true 0).total_price = 10763 ∧
      (calculateMultiRoomTotal
        [⟨5000, 1738368000000, 1738454400000⟩, ⟨5500, 1738454400000, 1738540800000⟩]
        true 0).vat_amount = 263) := by
  norm_num [calculateMultiRoomTotal, ceil2, msPerDay, ceil_as_floor]

/-- C6 amended: on that input the function returns total_price = 10762.5
and vat_amount = 262.5: the VAT of 10500 at 2.5 percent is exactly 262.5,
and the two-decimal ceilings leave it unchanged. -/
theorem multiRoomTotal_feb_example :
    calculateMultiRoomTotal
      [⟨5000, 1738368000000, 1738454400000⟩, ⟨5500, 1738454400000, 1738540800000⟩]
      true 0 = ⟨21525/2, 525/2⟩ := by
  norm_num [calculateMultiRoomTotal, ceil2, msPerDay, ceil_as_floor]

/-- C7: cancelling a reservation with advance a and computed refund r
sets exactly status = Cancelled, refund_amount = r, checkout_payable = 0,
pending_amount = 0, vat_amount = 0, revenue = a - r and advance = a - r,
leaving the price untouched. -/
theorem cancellation_sets_fields (b : BookingFinance) (r : ℚ) :
    (processRefundUpdate b r).status = Status.Cancelled ∧
    (processRefundUpdate b r).refund_amount = r ∧
    (processRefundUpdate b r).checkout_payable = 0 ∧
    (processRefundUpdate b r).pending_amount = 0 ∧
    (processRefundUpdate b r).vat_amount = 0 ∧
    (processRefundUpdate b r).revenue = b.advance - r ∧
    (processRefundUpdate b r).advance = b.advance - r ∧
    (processRefundUpdate b r).price = b.price :=
  ⟨rfl, rfl, rfl, rfl, rfl, rfl, rfl, rfl⟩

/-- C8 counterexample: with customRefundAmount = 0.005 the returned
refundAmount is 0.01, not the value verbatim. -/
theorem calculateRefund_custom_not_verbatim :
    (calculateRefund 0 0 0 0 (some (1/200))).refundAmount ≠ 1/200 := by
  norm_num [calculateRefund, round2]

/-- C8 amended: when customRefundAmount is provided, calculateRefund
returns it rounded to two decimals (halves up) with the custom policy
label, independent of the price, the check-in date, today and the
advance paid; the value is returned verbatim exactly when it already has
at most two decimals. -/
theorem calculateRefund_custom_rounded
    (price advancePaid : ℚ) (checkIn today : ℤ) (c : ℚ) :
    calculateRefund price checkIn today advancePaid (some c)
      = ⟨round2 c, "Custom refund amount - Based on guest negotiation"⟩ := rfl

/-- C9: checkMultiRoomConflict with an empty existing-reservations pool
returns no conflict for every request list, including a list whose two
candidate entries name the same room with strictly overlapping ranges:
candidates are never cross-checked against their siblings. -/
theorem multiRoom_empty_pool_no_conflict (ranges : List RoomDateRange) :
    checkMultiRoomConflict ranges [] = ⟨false, none⟩ ∧
    checkMultiRoomConflict [⟨"A", 0, 2⟩, ⟨"A", 1, 3⟩] [] = ⟨false, none⟩ :=
  ⟨checkMultiRoomConflict_nil ranges, checkMultiRoomConflict_nil _⟩

/-- C10: a candidate whose direct room reference is absent (null) or the
empty string makes checkRoomConflict return no conflict for every
existing-reservations list, without consulting it. -/
theorem falsy_room_id_no_conflict (ci co : ℤ) (existing : List Booking) :
    checkRoomConflict ⟨none, ci, co⟩ existing = ⟨false, none⟩ ∧
    checkRoomConflict ⟨some "", ci, co⟩ existing = ⟨false, none⟩ :=
  ⟨rfl, by simp [checkRoomConflict]⟩

end Bonsai
